import Mathlib

/-!
Verification of the InTaxAssist tax engine against its specification.

The definitions below are a shallow embedding of the Python sources:
* `backend/models.py` — the `FinancialData` pydantic model and its
  construction-time validation (pydantic v1 semantics: `Field(ge=…, le=…)`
  constraints run first and reject, the `@validator` clamps run afterwards
  on accepted values only);
* `backend/config.py` — the `TAX_SLABS` and `DEDUCTION_LIMITS` tables and
  the module-level `get_tax_slabs` helper;
* the `TaxCalculatorService` written by `script_6.py`
  (`services/tax_calculator.py`) — deductions, slab-wise tax, cess,
  effective rate, regime comparison.

Monetary amounts are modelled as `ℚ`.  Python `float('inf')` used as a
sentinel for an unbounded slab is modelled by `Option ℚ` with `none` for
infinity.  Python exceptions (pydantic `ValidationError`, `KeyError`) are
modelled with `Except String`.
-/

/-- Tax regime enumeration (`models.TaxRegime`). -/
inductive TaxRegime where
  | old
  | new
deriving DecidableEq

/-- Embeds `TaxRegime.value`: the string payload of the enum member. -/
def TaxRegime.value : TaxRegime → String
  | .old => "old"
  | .new => "new"

/-- One entry of a slab table in `config.TAX_SLABS`:
`{"min": …, "max": … or None, "rate": …}`. -/
structure Slab where
  min : ℚ
  max : Option ℚ
  rate : ℚ
deriving DecidableEq

/-- Embeds `models.TaxSlabDetail`. -/
structure TaxSlabDetail where
  min_amount : ℚ
  max_amount : Option ℚ
  rate : ℚ
  tax_amount : ℚ
deriving DecidableEq

/-- The stored fields of `models.FinancialData`, in declaration order. -/
structure FinancialData where
  basic_salary : ℚ
  hra : ℚ
  special_allowance : ℚ
  other_allowances : ℚ
  bonus : ℚ
  interest_income : ℚ
  rental_income : ℚ
  capital_gains : ℚ
  other_income : ℚ
  section_80c : ℚ
  section_80d : ℚ
  section_80g : ℚ
  section_24 : ℚ
  section_80ccd1b : ℚ
  section_80e : ℚ
  section_80tta : ℚ
  standard_deduction : ℚ
  professional_tax : ℚ
  tds_deducted : ℚ
  advance_tax : ℚ
deriving DecidableEq

/-- The field defaults of `models.FinancialData` (`Field(default=…)`):
every field defaults to 0 except `standard_deduction`, which defaults
to 50000. -/
def FinancialData.defaults : FinancialData :=
  ⟨0, 0, 0, 0, 0, 0, 0, 0, 0, 0, 0, 0, 0, 0, 0, 0, 50000, 0, 0, 0⟩

/-- The conjunction of all pydantic v1 `Field(ge=…, le=…)` constraints of
`models.FinancialData`, one conjunct per constrained field, in field
declaration order.  `standard_deduction` carries no constraint and so does
not appear. -/
def FinancialData.passes_field_constraints (raw : FinancialData) : Prop :=
  0 ≤ raw.basic_salary ∧
  0 ≤ raw.hra ∧
  0 ≤ raw.special_allowance ∧
  0 ≤ raw.other_allowances ∧
  0 ≤ raw.bonus ∧
  0 ≤ raw.interest_income ∧
  0 ≤ raw.rental_income ∧
  0 ≤ raw.capital_gains ∧
  0 ≤ raw.other_income ∧
  (0 ≤ raw.section_80c ∧ raw.section_80c ≤ 150000) ∧
  (0 ≤ raw.section_80d ∧ raw.section_80d ≤ 25000) ∧
  0 ≤ raw.section_80g ∧
  0 ≤ raw.section_24 ∧
  (0 ≤ raw.section_80ccd1b ∧ raw.section_80ccd1b ≤ 50000) ∧
  0 ≤ raw.section_80e ∧
  (0 ≤ raw.section_80tta ∧ raw.section_80tta ≤ 10000) ∧
  (0 ≤ raw.professional_tax ∧ raw.professional_tax ≤ 2500) ∧
  0 ≤ raw.tds_deducted ∧
  0 ≤ raw.advance_tax

instance (raw : FinancialData) : Decidable raw.passes_field_constraints := by
  unfold FinancialData.passes_field_constraints
  infer_instance

/-- Embeds `models.FinancialData.validate_80c_limit` (post-constraint validator). -/
def validate_80c_limit (v : ℚ) : ℚ := min v 150000

/-- Embeds `models.FinancialData.validate_80d_limit` (post-constraint validator). -/
def validate_80d_limit (v : ℚ) : ℚ := min v 25000

/-- Construction of `models.FinancialData` under pydantic v1 semantics:
every field is checked against its `Field(ge=…, le=…)` constraints, and
any violation raises a `ValidationError`; the `@validator` clamps for
`section_80c` / `section_80d` run only on values those constraints already
accept.  `standard_deduction` has no constraint at all and is stored
unchanged. -/
def FinancialData.construct (raw : FinancialData) : Except String FinancialData :=
  if raw.passes_field_constraints then
    .ok ⟨raw.basic_salary, raw.hra, raw.special_allowance, raw.other_allowances,
      raw.bonus, raw.interest_income, raw.rental_income, raw.capital_gains,
      raw.other_income, validate_80c_limit raw.section_80c,
      validate_80d_limit raw.section_80d, raw.section_80g, raw.section_24,
      raw.section_80ccd1b, raw.section_80e, raw.section_80tta,
      raw.standard_deduction, raw.professional_tax, raw.tds_deducted,
      raw.advance_tax⟩
  else .error "ValidationError"

/-- Embeds `models.FinancialData.gross_salary` (computed property). -/
def FinancialData.gross_salary (fd : FinancialData) : ℚ :=
  fd.basic_salary + fd.hra + fd.special_allowance + fd.other_allowances + fd.bonus

/-- Embeds `models.FinancialData.total_income` (computed property). -/
def FinancialData.total_income (fd : FinancialData) : ℚ :=
  fd.gross_salary + fd.interest_income + fd.rental_income +
    fd.capital_gains + fd.other_income

/-- Embeds `config.TAX_SLABS["2024-25"]["old"]`. -/
def old_slabs_2425 : List Slab :=
  [⟨0, some 250000, 0⟩, ⟨250000, some 500000, 5⟩,
   ⟨500000, some 1000000, 20⟩, ⟨1000000, none, 30⟩]

/-- Embeds `config.TAX_SLABS["2024-25"]["new"]`. -/
def new_slabs_2425 : List Slab :=
  [⟨0, some 300000, 0⟩, ⟨300000, some 600000, 5⟩,
   ⟨600000, some 900000, 10⟩, ⟨900000, some 1200000, 15⟩,
   ⟨1200000, some 1500000, 20⟩, ⟨1500000, none, 30⟩]

/-- Embeds `config.TAX_SLABS["2023-24"]["old"]` (same entries as 2024-25). -/
def old_slabs_2324 : List Slab :=
  [⟨0, some 250000, 0⟩, ⟨250000, some 500000, 5⟩,
   ⟨500000, some 1000000, 20⟩, ⟨1000000, none, 30⟩]

/-- Embeds `config.TAX_SLABS["2023-24"]["new"]` (same entries as 2024-25). -/
def new_slabs_2324 : List Slab :=
  [⟨0, some 300000, 0⟩, ⟨300000, some 600000, 5⟩,
   ⟨600000, some 900000, 10⟩, ⟨900000, some 1200000, 15⟩,
   ⟨1200000, some 1500000, 20⟩, ⟨1500000, none, 30⟩]

/-- The inner dict `config.TAX_SLABS["2024-25"]`, as a partial map on
regime keys. -/
def regime_slabs_2425 (regime : String) : Option (List Slab) :=
  if regime = "old" then some old_slabs_2425
  else if regime = "new" then some new_slabs_2425
  else none

/-- The inner dict `config.TAX_SLABS["2023-24"]`, as a partial map on
regime keys. -/
def regime_slabs_2324 (regime : String) : Option (List Slab) :=
  if regime = "old" then some old_slabs_2324
  else if regime = "new" then some new_slabs_2324
  else none

/-- Embeds `config.TAX_SLABS`, as a partial map on assessment-year keys. -/
def TAX_SLABS (year : String) : Option (String → Option (List Slab)) :=
  if year = "2024-25" then some regime_slabs_2425
  else if year = "2023-24" then some regime_slabs_2324
  else none

/-- Embeds `TAX_SLABS[year][regime]`: `none` when either key is missing
(a Python `KeyError`). -/
def lookup_tax_slabs (year regime : String) : Option (List Slab) :=
  (TAX_SLABS year).bind (fun table => table regime)

/-- Embeds `config.DEDUCTION_LIMITS["section_80c"]`. -/
def limit_section_80c : ℚ := 150000

/-- Embeds `config.DEDUCTION_LIMITS["section_80d"]["individual"]`. -/
def limit_section_80d_individual : ℚ := 25000

/-- Embeds `config.DEDUCTION_LIMITS["section_80ccd1b"]`. -/
def limit_section_80ccd1b : ℚ := 50000

/-- Embeds `config.DEDUCTION_LIMITS["section_80tta"]`. -/
def limit_section_80tta : ℚ := 10000

/-- Embeds `TaxCalculatorService.get_tax_slabs`: try
`TAX_SLABS[assessment_year][regime]`; on `KeyError` fall back to
`TAX_SLABS["2024-25"][regime]`, whose own `KeyError` (unknown regime)
escapes uncaught. -/
def get_tax_slabs (regime : String) (assessment_year : String) : Except String (List Slab) :=
  match lookup_tax_slabs assessment_year regime with
  | some slabs => .ok slabs
  | none =>
    match lookup_tax_slabs "2024-25" regime with
    | some slabs => .ok slabs
    | none => .error "KeyError"

/-- Embeds `config.get_tax_slabs`:
`TAX_SLABS.get(assessment_year, TAX_SLABS["2024-25"]).get(regime, [])`. -/
def config_get_tax_slabs (regime : String) (assessment_year : String) : List Slab :=
  let table := (TAX_SLABS assessment_year).getD regime_slabs_2425
  (table regime).getD []

/-- Embeds `TaxCalculatorService._calculate_old_regime_deductions`. -/
def calculate_old_regime_deductions (fd : FinancialData) : ℚ :=
  fd.standard_deduction +
    min fd.section_80c limit_section_80c +
    min fd.section_80d limit_section_80d_individual +
    fd.section_80g +
    fd.section_24 +
    min fd.section_80ccd1b limit_section_80ccd1b +
    fd.section_80e +
    min fd.section_80tta limit_section_80tta +
    fd.professional_tax

/-- Embeds `TaxCalculatorService._calculate_new_regime_deductions`. -/
def calculate_new_regime_deductions (fd : FinancialData) : ℚ :=
  fd.standard_deduction + fd.professional_tax

/-- Embeds `slab["max"] if slab["max"] else float('inf')`: both `None` and `0`
are falsy in Python, so both select infinity (`none`). -/
def Slab.effMax (s : Slab) : Option ℚ :=
  match s.max with
  | none => none
  | some m => if m = 0 then none else some m

/-- Embeds `TaxCalculatorService._calculate_slab_tax`: walk the slab list with a
running `remaining_income`; for a bounded slab the taxable part is
`min remaining (max - min)`; the unbounded slab absorbs everything left
and ends the loop.  Returns `(total_tax, slab_details)`. -/
def calculate_slab_tax : List Slab → ℚ → ℚ × List TaxSlabDetail
  | [], _ => (0, [])
  | slab :: rest, remaining_income =>
    if remaining_income ≤ 0 then (0, [])
    else
      match slab.effMax with
      | none =>
        let slab_tax := remaining_income * (slab.rate / 100)
        (slab_tax, [⟨slab.min, none, slab.rate, slab_tax⟩])
      | some m =>
        let slab_taxable := min remaining_income (m - slab.min)
        let slab_tax := slab_taxable * (slab.rate / 100)
        if remaining_income - slab_taxable ≤ 0 then
          (slab_tax, [⟨slab.min, some m, slab.rate, slab_tax⟩])
        else
          let next := calculate_slab_tax rest (remaining_income - slab_taxable)
          (slab_tax + next.1, ⟨slab.min, some m, slab.rate, slab_tax⟩ :: next.2)

/-- Embeds `TaxCalculatorService.cess_rate = 0.04`. -/
def cess_rate : ℚ := 4 / 100

/-- Python `round(x, 2)`: round to two decimal places, ties to even. -/
def round_half_to_even (x : ℚ) : ℤ :=
  let n := ⌊x⌋
  let frac := x - n
  if frac < 1 / 2 then n
  else if 1 / 2 < frac then n + 1
  else if n % 2 = 0 then n else n + 1

/-- Embeds `round(effective_tax_rate, 2)` as a rational. -/
def py_round2 (x : ℚ) : ℚ := (round_half_to_even (x * 100) : ℚ) / 100

/-- Embeds `models.RegimeTaxDetails`. -/
structure RegimeTaxDetails where
  regime : TaxRegime
  gross_income : ℚ
  taxable_income : ℚ
  total_deductions : ℚ
  tax_before_cess : ℚ
  cess : ℚ
  total_tax : ℚ
  tax_slabs : List TaxSlabDetail
  effective_tax_rate : ℚ
  tds_deducted : ℚ
  advance_tax : ℚ
  refund_or_payable : ℚ
deriving DecidableEq

/-- Embeds `TaxCalculatorService._calculate_regime_tax`.  A `KeyError` escaping
the slab lookup propagates (`Except.error`); otherwise the record is
assembled exactly as in the source. -/
def calculate_regime_tax (fd : FinancialData) (regime : TaxRegime)
    (assessment_year : String) : Except String RegimeTaxDetails :=
  let gross_income := fd.total_income
  let total_deductions :=
    match regime with
    | .old => calculate_old_regime_deductions fd
    | .new => calculate_new_regime_deductions fd
  let taxable_income := max 0 (gross_income - total_deductions)
  match get_tax_slabs regime.value assessment_year with
  | .error e => .error e
  | .ok tax_slabs =>
    let tax_calculation := calculate_slab_tax tax_slabs taxable_income
    let cess := tax_calculation.1 * cess_rate
    let total_tax := tax_calculation.1 + cess
    let effective_tax_rate := if gross_income > 0 then total_tax / gross_income * 100 else 0
    let taxes_paid := fd.tds_deducted + fd.advance_tax
    .ok ⟨regime, gross_income, taxable_income, total_deductions,
      tax_calculation.1, cess, total_tax, tax_calculation.2,
      py_round2 effective_tax_rate, fd.tds_deducted, fd.advance_tax,
      total_tax - taxes_paid⟩

/-- Embeds `models.TaxCalculationResponse` (the fields the engine fills). -/
structure TaxCalculationResponse where
  old_regime : RegimeTaxDetails
  new_regime : RegimeTaxDetails
  recommended_regime : TaxRegime
  savings_amount : ℚ
deriving DecidableEq

/-- Embeds `TaxCalculatorService.calculate_comprehensive_tax`. -/
def calculate_comprehensive_tax (fd : FinancialData)
    (assessment_year : String) : Except String TaxCalculationResponse :=
  match calculate_regime_tax fd .old assessment_year with
  | .error e => .error e
  | .ok old_regime_details =>
    match calculate_regime_tax fd .new assessment_year with
    | .error e => .error e
    | .ok new_regime_details =>
      if old_regime_details.total_tax ≤ new_regime_details.total_tax then
        .ok ⟨old_regime_details, new_regime_details, .old,
          new_regime_details.total_tax - old_regime_details.total_tax⟩
      else
        .ok ⟨old_regime_details, new_regime_details, .new,
          old_regime_details.total_tax - new_regime_details.total_tax⟩

/-! ### Evaluation lemmas for the slab-table lookups -/

theorem get_tax_slabs_old_2425 : get_tax_slabs "old" "2024-25" = .ok old_slabs_2425 := by
  simp [get_tax_slabs, lookup_tax_slabs, TAX_SLABS, regime_slabs_2425]

theorem get_tax_slabs_new_2425 : get_tax_slabs "new" "2024-25" = .ok new_slabs_2425 := by
  simp [get_tax_slabs, lookup_tax_slabs, TAX_SLABS, regime_slabs_2425]

theorem get_tax_slabs_old_2324 : get_tax_slabs "old" "2023-24" = .ok old_slabs_2324 := by
  simp [get_tax_slabs, lookup_tax_slabs, TAX_SLABS, regime_slabs_2324, regime_slabs_2425]

theorem get_tax_slabs_new_2324 : get_tax_slabs "new" "2023-24" = .ok new_slabs_2324 := by
  simp [get_tax_slabs, lookup_tax_slabs, TAX_SLABS, regime_slabs_2324, regime_slabs_2425]

/-- For a genuine regime enum value, the service lookup never fails and
always produces one of the four configured tables. -/
theorem get_tax_slabs_cases (r : TaxRegime) (year : String) :
    get_tax_slabs r.value year = .ok old_slabs_2425 ∨
    get_tax_slabs r.value year = .ok new_slabs_2425 ∨
    get_tax_slabs r.value year = .ok old_slabs_2324 ∨
    get_tax_slabs r.value year = .ok new_slabs_2324 := by
  cases r <;>
    simp only [TaxRegime.value, get_tax_slabs, lookup_tax_slabs, TAX_SLABS] <;>
    split_ifs <;> simp [regime_slabs_2425, regime_slabs_2324]

/-- For a genuine regime enum value the service lookup succeeds. -/
theorem get_tax_slabs_isOk (r : TaxRegime) (year : String) :
    ∃ slabs, get_tax_slabs r.value year = .ok slabs := by
  rcases get_tax_slabs_cases r year with h | h | h | h <;> exact ⟨_, h⟩

/-- A year key missing from `TAX_SLABS` makes the service lookup fall back
to the `"2024-25"` table of the requested regime. -/
theorem get_tax_slabs_fallback (r : TaxRegime) (year : String)
    (h24 : year ≠ "2024-25") (h23 : year ≠ "2023-24") :
    get_tax_slabs r.value year = get_tax_slabs r.value "2024-25" := by
  cases r <;>
    simp [TaxRegime.value, get_tax_slabs, lookup_tax_slabs, TAX_SLABS,
      regime_slabs_2425, regime_slabs_2324, h24, h23]

/-! ### Structural lemmas about `calculate_slab_tax` -/

/-- Nothing is taxed when no income remains, whatever the table. -/
theorem calculate_slab_tax_nonpos (slabs : List Slab) (x : ℚ) (hx : x ≤ 0) :
    calculate_slab_tax slabs x = (0, []) := by
  cases slabs with
  | nil => simp [calculate_slab_tax]
  | cons s rest => simp [calculate_slab_tax, hx]

/-- Well-formedness of a slab table: non-negative rates and, for each
bounded slab, an upper bound at or above the lower bound. -/
def SlabsWF (slabs : List Slab) : Prop :=
  ∀ s ∈ slabs, 0 ≤ s.rate ∧ ∀ m, s.effMax = some m → s.min ≤ m

theorem slab_tax_nonneg (slabs : List Slab) (hWF : SlabsWF slabs) :
    ∀ x : ℚ, 0 ≤ (calculate_slab_tax slabs x).1 := by
  induction slabs with
  | nil => intro x; simp [calculate_slab_tax]
  | cons s rest ih =>
    intro x
    have hs := hWF s (by simp)
    have hrest : SlabsWF rest := fun t ht => hWF t (by simp [ht])
    simp only [calculate_slab_tax]
    split_ifs with h1
    · norm_num
    · push_neg at h1
      have hrate : (0:ℚ) ≤ s.rate / 100 := div_nonneg hs.1 (by norm_num)
      cases hm : s.effMax with
      | none =>
        exact mul_nonneg h1.le hrate
      | some m =>
        have hrange : 0 ≤ m - s.min := sub_nonneg.mpr (hs.2 m hm)
        have htaxable : 0 ≤ min x (m - s.min) := le_min h1.le hrange
        have hterm : 0 ≤ min x (m - s.min) * (s.rate / 100) :=
          mul_nonneg htaxable hrate
        dsimp only
        split_ifs with h2
        · exact hterm
        · exact add_nonneg hterm (ih hrest _)

/-- Subtracting the amount absorbed by a bounded slab is monotone in the
remaining income. -/
theorem sub_min_mono {x y c : ℚ} (hxy : x ≤ y) :
    x - min x c ≤ y - min y c := by
  simp only [min_def]
  split_ifs <;> linarith

/-- Slab-wise tax is monotone non-decreasing in the remaining income, for
any well-formed slab table. -/
theorem slab_tax_mono (slabs : List Slab) (hWF : SlabsWF slabs) :
    ∀ x y : ℚ, x ≤ y → (calculate_slab_tax slabs x).1 ≤ (calculate_slab_tax slabs y).1 := by
  induction slabs with
  | nil => intro x y _; simp [calculate_slab_tax]
  | cons s rest ih =>
    intro x y hxy
    have hs := hWF s (by simp)
    have hrest : SlabsWF rest := fun t ht => hWF t (by simp [ht])
    have hrate : (0:ℚ) ≤ s.rate / 100 := div_nonneg hs.1 (by norm_num)
    by_cases hx : x ≤ 0
    · rw [calculate_slab_tax_nonpos (s :: rest) x hx]
      exact slab_tax_nonneg (s :: rest) hWF y
    · push_neg at hx
      have hy : ¬ y ≤ 0 := by linarith
      simp only [calculate_slab_tax, if_neg (not_le.mpr hx), if_neg hy]
      cases hm : s.effMax with
      | none =>
        exact mul_le_mul_of_nonneg_right hxy hrate
      | some m =>
        have hrange : 0 ≤ m - s.min := sub_nonneg.mpr (hs.2 m hm)
        have htx : min x (m - s.min) ≤ min y (m - s.min) := min_le_min hxy le_rfl
        have hterm : min x (m - s.min) * (s.rate / 100) ≤ min y (m - s.min) * (s.rate / 100) :=
          mul_le_mul_of_nonneg_right htx hrate
        have hsub : x - min x (m - s.min) ≤ y - min y (m - s.min) := sub_min_mono hxy
        dsimp only
        split_ifs with h2 h3 h3
        · exact hterm
        · have hnn : 0 ≤ (calculate_slab_tax rest (y - min y (m - s.min))).1 :=
            slab_tax_nonneg rest hrest _
          linarith
        · exact absurd (hsub.trans h3) h2
        · have := ih hrest _ _ hsub
          linarith

/-- The per-slab amounts recorded in the detail list add up exactly to the
total tax before cess, for any slab table and income. -/
theorem slab_tax_sum (slabs : List Slab) :
    ∀ x : ℚ, ((calculate_slab_tax slabs x).2.map TaxSlabDetail.tax_amount).sum =
      (calculate_slab_tax slabs x).1 := by
  induction slabs with
  | nil => intro x; simp [calculate_slab_tax]
  | cons s rest ih =>
    intro x
    simp only [calculate_slab_tax]
    split_ifs with h1
    · simp
    · cases s.effMax with
      | none => simp
      | some m =>
        dsimp only
        split_ifs with h2
        · simp
        · simp [ih]

/-- The `(min, max, rate)` keys of the recorded slab details form an
in-order prefix of the keys of the slab table that was walked (with the
Python falsy-`max` convention applied to the table's `max` entries). -/
theorem slab_tax_details_key_prefix (slabs : List Slab) :
    ∀ x : ℚ,
      ((calculate_slab_tax slabs x).2.map (fun t => (t.min_amount, t.max_amount, t.rate))) <+:
        (slabs.map (fun s => (s.min, s.effMax, s.rate))) := by
  induction slabs with
  | nil => intro x; simp [calculate_slab_tax]
  | cons s rest ih =>
    intro x
    simp only [calculate_slab_tax]
    split_ifs with h1
    · simp
    · cases hm : s.effMax with
      | none =>
        dsimp only
        rw [List.map_cons, List.map_cons, hm]
        exact (List.cons_prefix_cons).mpr ⟨rfl, List.nil_prefix⟩
      | some m =>
        dsimp only
        split_ifs with h2
        · rw [List.map_cons, List.map_cons, hm]
          exact (List.cons_prefix_cons).mpr ⟨rfl, List.nil_prefix⟩
        · rw [List.map_cons, List.map_cons, hm]
          exact (List.cons_prefix_cons).mpr ⟨rfl, ih _⟩

/-- Inversion of a successful `_calculate_regime_tax` run: the produced
record's fields are exactly the source's formulas over the slab table the
lookup returned. -/
theorem calculate_regime_tax_ok_elim {fd : FinancialData} {r : TaxRegime}
    {year : String} {d : RegimeTaxDetails}
    (h : calculate_regime_tax fd r year = .ok d) :
    ∃ slabs, get_tax_slabs r.value year = .ok slabs ∧
      d.regime = r ∧
      d.gross_income = fd.total_income ∧
      d.total_deductions = (match r with
        | .old => calculate_old_regime_deductions fd
        | .new => calculate_new_regime_deductions fd) ∧
      d.taxable_income = max 0 (d.gross_income - d.total_deductions) ∧
      d.tax_before_cess = (calculate_slab_tax slabs d.taxable_income).1 ∧
      d.cess = d.tax_before_cess * cess_rate ∧
      d.total_tax = d.tax_before_cess + d.cess ∧
      d.tax_slabs = (calculate_slab_tax slabs d.taxable_income).2 ∧
      d.effective_tax_rate =
        py_round2 (if d.gross_income > 0 then d.total_tax / d.gross_income * 100 else 0) ∧
      d.tds_deducted = fd.tds_deducted ∧
      d.advance_tax = fd.advance_tax ∧
      d.refund_or_payable = d.total_tax - (fd.tds_deducted + fd.advance_tax) := by
  simp only [calculate_regime_tax] at h
  split at h
  · exact absurd h (by simp)
  · rename_i slabs heq
    obtain rfl := (Except.ok.inj h).symm
    refine ⟨slabs, heq, rfl, rfl, ?_, rfl, rfl, rfl, rfl, rfl, rfl, rfl, rfl, rfl⟩
    cases r <;> rfl

/-! ### The four configured tables are well-formed -/

theorem slabsWF_old_2425 : SlabsWF old_slabs_2425 := by
  intro s hs
  fin_cases hs <;> refine ⟨by norm_num, fun m hm => ?_⟩ <;>
    norm_num [Slab.effMax] at hm <;>
    first
      | exact Option.noConfusion hm
      | (subst hm; norm_num)

theorem slabsWF_new_2425 : SlabsWF new_slabs_2425 := by
  intro s hs
  fin_cases hs <;> refine ⟨by norm_num, fun m hm => ?_⟩ <;>
    norm_num [Slab.effMax] at hm <;>
    first
      | exact Option.noConfusion hm
      | (subst hm; norm_num)

theorem slabsWF_old_2324 : SlabsWF old_slabs_2324 := by
  intro s hs
  fin_cases hs <;> refine ⟨by norm_num, fun m hm => ?_⟩ <;>
    norm_num [Slab.effMax] at hm <;>
    first
      | exact Option.noConfusion hm
      | (subst hm; norm_num)

theorem slabsWF_new_2324 : SlabsWF new_slabs_2324 := by
  intro s hs
  fin_cases hs <;> refine ⟨by norm_num, fun m hm => ?_⟩ <;>
    norm_num [Slab.effMax] at hm <;>
    first
      | exact Option.noConfusion hm
      | (subst hm; norm_num)

/-- Every table the service lookup can return is well-formed. -/
theorem get_tax_slabs_WF {r : TaxRegime} {year : String} {slabs : List Slab}
    (h : get_tax_slabs r.value year = .ok slabs) : SlabsWF slabs := by
  rcases get_tax_slabs_cases r year with hc | hc | hc | hc <;>
    rw [h] at hc <;> obtain rfl := Except.ok.inj hc
  · exact slabsWF_old_2425
  · exact slabsWF_new_2425
  · exact slabsWF_old_2324
  · exact slabsWF_new_2324

/-- On the configured tables the falsy-`max` convention is invisible: no
configured bounded slab has `max = 0`, so the effective keys coincide with
the stored keys. -/
theorem effMax_keys_old_2425 :
    old_slabs_2425.map (fun s => (s.min, s.effMax, s.rate)) =
      old_slabs_2425.map (fun s => (s.min, s.max, s.rate)) := by
  norm_num [old_slabs_2425, Slab.effMax]

theorem effMax_keys_new_2425 :
    new_slabs_2425.map (fun s => (s.min, s.effMax, s.rate)) =
      new_slabs_2425.map (fun s => (s.min, s.max, s.rate)) := by
  norm_num [new_slabs_2425, Slab.effMax]

theorem effMax_keys_old_2324 :
    old_slabs_2324.map (fun s => (s.min, s.effMax, s.rate)) =
      old_slabs_2324.map (fun s => (s.min, s.max, s.rate)) := by
  norm_num [old_slabs_2324, Slab.effMax]

theorem effMax_keys_new_2324 :
    new_slabs_2324.map (fun s => (s.min, s.effMax, s.rate)) =
      new_slabs_2324.map (fun s => (s.min, s.max, s.rate)) := by
  norm_num [new_slabs_2324, Slab.effMax]

/-- Embeds `round(0, 2) = 0`. -/
theorem py_round2_zero : py_round2 0 = 0 := by
  norm_num [py_round2, round_half_to_even]

/-! ### Concrete inputs and their engine outputs -/

/-- All twenty fields zero (the zero-income edge case; `standard_deduction`
also 0, matching "all fields 0"). -/
def fdZero : FinancialData :=
  ⟨0, 0, 0, 0, 0, 0, 0, 0, 0, 0, 0, 0, 0, 0, 0, 0, 0, 0, 0, 0⟩

/-- The spec's worked example input (assessment year 2024-25). -/
def fdC2 : FinancialData :=
  { FinancialData.defaults with
    basic_salary := 600000
    hra := 240000
    special_allowance := 80000
    other_allowances := 120000
    section_80c := 150000
    section_80d := 25000
    section_24 := 200000
    standard_deduction := 50000 }

/-- Old-regime output of the worked example. -/
def respC2_old : RegimeTaxDetails :=
  ⟨.old, 1040000, 615000, 425000, 35500, 1420, 36920,
    [⟨0, some 250000, 0, 0⟩, ⟨250000, some 500000, 5, 12500⟩,
     ⟨500000, some 1000000, 20, 23000⟩],
    355/100, 0, 0, 36920⟩

/-- New-regime output of the worked example. -/
def respC2_new : RegimeTaxDetails :=
  ⟨.new, 1040000, 990000, 50000, 58500, 2340, 60840,
    [⟨0, some 300000, 0, 0⟩, ⟨300000, some 600000, 5, 15000⟩,
     ⟨600000, some 900000, 10, 30000⟩, ⟨900000, some 1200000, 15, 13500⟩],
    585/100, 0, 0, 60840⟩

/-- Comprehensive output of the worked example. -/
def respC2 : TaxCalculationResponse := ⟨respC2_old, respC2_new, .old, 23920⟩

/-- Old-regime output for the all-zero input. -/
def rtdZero_old : RegimeTaxDetails := ⟨.old, 0, 0, 0, 0, 0, 0, [], 0, 0, 0, 0⟩

/-- New-regime output for the all-zero input. -/
def rtdZero_new : RegimeTaxDetails := ⟨.new, 0, 0, 0, 0, 0, 0, [], 0, 0, 0, 0⟩

/-- Comprehensive output for the all-zero input. -/
def respZero : TaxCalculationResponse := ⟨rtdZero_old, rtdZero_new, .old, 0⟩

theorem regime_tax_fdC2_old :
    calculate_regime_tax fdC2 .old "2024-25" = .ok respC2_old := by
  norm_num [calculate_regime_tax, get_tax_slabs_old_2425, old_slabs_2425,
    calculate_old_regime_deductions, limit_section_80c,
    limit_section_80d_individual, limit_section_80ccd1b, limit_section_80tta,
    calculate_slab_tax, Slab.effMax, cess_rate, py_round2, round_half_to_even,
    FinancialData.total_income, FinancialData.gross_salary, fdC2,
    FinancialData.defaults, min_def, max_def, TaxRegime.value, respC2_old]

theorem regime_tax_fdC2_new :
    calculate_regime_tax fdC2 .new "2024-25" = .ok respC2_new := by
  norm_num [calculate_regime_tax, get_tax_slabs_new_2425, new_slabs_2425,
    calculate_new_regime_deductions,
    calculate_slab_tax, Slab.effMax, cess_rate, py_round2, round_half_to_even,
    FinancialData.total_income, FinancialData.gross_salary, fdC2,
    FinancialData.defaults, min_def, max_def, TaxRegime.value, respC2_new]

theorem comprehensive_fdC2 :
    calculate_comprehensive_tax fdC2 "2024-25" = .ok respC2 := by
  norm_num [calculate_comprehensive_tax, regime_tax_fdC2_old,
    regime_tax_fdC2_new, respC2, respC2_old, respC2_new]

theorem regime_tax_fdZero_old :
    calculate_regime_tax fdZero .old "2024-25" = .ok rtdZero_old := by
  norm_num [calculate_regime_tax, get_tax_slabs_old_2425, old_slabs_2425,
    calculate_old_regime_deductions, limit_section_80c,
    limit_section_80d_individual, limit_section_80ccd1b, limit_section_80tta,
    calculate_slab_tax, Slab.effMax, cess_rate, py_round2, round_half_to_even,
    FinancialData.total_income, FinancialData.gross_salary, fdZero,
    min_def, max_def, TaxRegime.value, rtdZero_old]

theorem regime_tax_fdZero_new :
    calculate_regime_tax fdZero .new "2024-25" = .ok rtdZero_new := by
  norm_num [calculate_regime_tax, get_tax_slabs_new_2425, new_slabs_2425,
    calculate_new_regime_deductions,
    calculate_slab_tax, Slab.effMax, cess_rate, py_round2, round_half_to_even,
    FinancialData.total_income, FinancialData.gross_salary, fdZero,
    min_def, max_def, TaxRegime.value, rtdZero_new]

theorem comprehensive_fdZero :
    calculate_comprehensive_tax fdZero "2024-25" = .ok respZero := by
  norm_num [calculate_comprehensive_tax, regime_tax_fdZero_old,
    regime_tax_fdZero_new, respZero, rtdZero_old, rtdZero_new]

/-! ### Inputs exercising the construction-time validation -/

/-- Embeds `FinancialData(section_80c=200000)`. -/
def fd80c_overcap : FinancialData :=
  { FinancialData.defaults with section_80c := 200000 }

/-- The input of `test_main.py::test_financial_data_validation`:
`FinancialData(basic_salary=500000, section_80c=160000)`. -/
def fd80c_test160k : FinancialData :=
  { FinancialData.defaults with
    basic_salary := 500000
    section_80c := 160000 }

/-- Embeds `FinancialData(section_80d=25001)`. -/
def fd80d_overcap : FinancialData :=
  { FinancialData.defaults with section_80d := 25001 }

/-- Embeds `FinancialData(section_80ccd1b=50001)`. -/
def fd80ccd1b_overcap : FinancialData :=
  { FinancialData.defaults with section_80ccd1b := 50001 }

/-- Embeds `FinancialData(section_80tta=10001)`. -/
def fd80tta_overcap : FinancialData :=
  { FinancialData.defaults with section_80tta := 10001 }

/-- Embeds `FinancialData(professional_tax=2501)`. -/
def fdprof_overcap : FinancialData :=
  { FinancialData.defaults with professional_tax := 2501 }

/-- Embeds `FinancialData(standard_deduction=-5)`. -/
def fdNegStd : FinancialData :=
  { FinancialData.defaults with standard_deduction := -5 }

/-- Embeds `FinancialData(basic_salary=-1)`. -/
def fdNegBasic : FinancialData :=
  { FinancialData.defaults with basic_salary := -1 }

/-- Claim C1 (code bug in the checked-in model): constructing
`FinancialData` with an over-cap value in any capped field does NOT clamp:
pydantic v1 checks the `Field(le=…)` constraint before the clamping
`@validator` runs, so construction raises a `ValidationError`.  This
contradicts the claim, the spec, and the repository's own test
`test_main.py::test_financial_data_validation`, which constructs
`FinancialData(basic_salary=500000, section_80c=160000)` and asserts the
stored value is 150000. -/
theorem claim_C1_overcap_rejected :
    FinancialData.construct fd80c_overcap = .error "ValidationError" ∧
    FinancialData.construct fd80c_test160k = .error "ValidationError" ∧
    FinancialData.construct fd80d_overcap = .error "ValidationError" ∧
    FinancialData.construct fd80ccd1b_overcap = .error "ValidationError" ∧
    FinancialData.construct fd80tta_overcap = .error "ValidationError" ∧
    FinancialData.construct fdprof_overcap = .error "ValidationError" := by
  refine ⟨?_, ?_, ?_, ?_, ?_, ?_⟩ <;>
    norm_num [FinancialData.construct, FinancialData.passes_field_constraints,
      fd80c_overcap, fd80c_test160k, fd80d_overcap, fd80ccd1b_overcap,
      fd80tta_overcap, fdprof_overcap, FinancialData.defaults]

/-- Claim C2: the spec's worked example, exactly as claimed.  For
basic_salary=600000, hra=240000, special_allowance=80000,
other_allowances=120000, section_80c=150000, section_80d=25000,
section_24=200000, standard_deduction=50000 in 2024-25 the engine returns:
old regime gross 1040000, deductions 425000, taxable 615000,
tax before cess 35500, cess 1420, total 36920; new regime deductions
50000, taxable 990000, tax before cess 58500, cess 2340, total 60840;
recommended regime OLD, savings 23920. -/
theorem claim_C2_worked_example :
    calculate_comprehensive_tax fdC2 "2024-25" = .ok respC2 ∧
    respC2.old_regime.gross_income = 1040000 ∧
    respC2.old_regime.total_deductions = 425000 ∧
    respC2.old_regime.taxable_income = 615000 ∧
    respC2.old_regime.tax_before_cess = 35500 ∧
    respC2.old_regime.cess = 1420 ∧
    respC2.old_regime.total_tax = 36920 ∧
    respC2.new_regime.total_deductions = 50000 ∧
    respC2.new_regime.taxable_income = 990000 ∧
    respC2.new_regime.tax_before_cess = 58500 ∧
    respC2.new_regime.cess = 2340 ∧
    respC2.new_regime.total_tax = 60840 ∧
    respC2.recommended_regime = .old ∧
    respC2.savings_amount = 23920 := by
  refine ⟨comprehensive_fdC2, ?_, ?_, ?_, ?_, ?_, ?_, ?_, ?_, ?_, ?_, ?_, ?_, ?_⟩ <;>
    norm_num [respC2, respC2_old, respC2_new]

/-- Claim C3 counterexample: contrary to the claim, the service-level
lookup `TaxCalculatorService.get_tax_slabs` DOES raise for an unknown
regime key even with a known assessment year: the `except KeyError`
fallback `TAX_SLABS["2024-25"][regime]` raises `KeyError` again, and that
second exception escapes uncaught. -/
theorem claim_C3_counterexample :
    get_tax_slabs "agricultural" "2024-25" = .error "KeyError" := by
  simp [get_tax_slabs, lookup_tax_slabs, TAX_SLABS, regime_slabs_2425]

/-- Claim C3 as amended: only the module-level `config.get_tax_slabs`
returns an empty slab list for an unknown regime key (for any year), and
walking an empty slab list yields zero tax before cess; the service-level
`TaxCalculatorService.get_tax_slabs` instead raises `KeyError` on an
unknown regime. -/
theorem claim_C3_amended_theorem (regime year : String)
    (h1 : regime ≠ "old") (h2 : regime ≠ "new") (x : ℚ) :
    config_get_tax_slabs regime year = [] ∧
    (calculate_slab_tax (config_get_tax_slabs regime year) x).1 = 0 ∧
    get_tax_slabs regime year = .error "KeyError" := by
  have hempty : config_get_tax_slabs regime year = [] := by
    simp only [config_get_tax_slabs, TAX_SLABS]
    split_ifs <;> simp [regime_slabs_2425, regime_slabs_2324, h1, h2]
  refine ⟨hempty, ?_, ?_⟩
  · rw [hempty]; simp [calculate_slab_tax]
  · simp only [get_tax_slabs, lookup_tax_slabs, TAX_SLABS]
    split_ifs <;> simp [regime_slabs_2425, regime_slabs_2324, h1, h2]

/-- Witness for the amended claim C3 at regime "agricultural", year
"2030-31", income 1000000. -/
theorem claim_C3_witness :
    ("agricultural" : String) ≠ "old" ∧ ("agricultural" : String) ≠ "new" ∧
    (config_get_tax_slabs "agricultural" "2030-31" = [] ∧
     (calculate_slab_tax (config_get_tax_slabs "agricultural" "2030-31") 1000000).1 = 0 ∧
     get_tax_slabs "agricultural" "2030-31" = .error "KeyError") :=
  ⟨by decide, by decide,
    claim_C3_amended_theorem "agricultural" "2030-31" (by decide) (by decide) 1000000⟩

/-- Claim C4 counterexample: the claim is false on both of its parts.
`FinancialData(standard_deduction=-5)` is accepted and stores −5 (the
field has no `ge` constraint, so a negative stored field IS observable),
while `FinancialData(basic_salary=-1)` is not "clamped to 0" but rejected
with a `ValidationError`. -/
theorem claim_C4_counterexample :
    FinancialData.construct fdNegStd = .ok fdNegStd ∧
    fdNegStd.standard_deduction < 0 ∧
    FinancialData.construct fdNegBasic = .error "ValidationError" := by
  refine ⟨?_, ?_, ?_⟩ <;>
    norm_num [FinancialData.construct, FinancialData.passes_field_constraints,
      fdNegStd, fdNegBasic, FinancialData.defaults, validate_80c_limit,
      validate_80d_limit, min_def]

/-- Claim C4 as amended: a successful construction stores non-negative
values in every monetary field EXCEPT `standard_deduction`; negative
inputs to the other fields are rejected (never clamped), while
`standard_deduction` is stored unchanged, whatever its sign. -/
theorem claim_C4_amended_theorem (raw fd : FinancialData)
    (h : FinancialData.construct raw = .ok fd) :
    0 ≤ fd.basic_salary ∧ 0 ≤ fd.hra ∧ 0 ≤ fd.special_allowance ∧
    0 ≤ fd.other_allowances ∧ 0 ≤ fd.bonus ∧ 0 ≤ fd.interest_income ∧
    0 ≤ fd.rental_income ∧ 0 ≤ fd.capital_gains ∧ 0 ≤ fd.other_income ∧
    0 ≤ fd.section_80c ∧ 0 ≤ fd.section_80d ∧ 0 ≤ fd.section_80g ∧
    0 ≤ fd.section_24 ∧ 0 ≤ fd.section_80ccd1b ∧ 0 ≤ fd.section_80e ∧
    0 ≤ fd.section_80tta ∧ 0 ≤ fd.professional_tax ∧ 0 ≤ fd.tds_deducted ∧
    0 ≤ fd.advance_tax ∧ fd.standard_deduction = raw.standard_deduction := by
  unfold FinancialData.construct at h
  split_ifs at h with hp
  · obtain rfl := (Except.ok.inj h).symm
    obtain ⟨hb, hh, hsa, hoa, hbo, hii, hri, hcg, hoi, h80c, h80d, h80g,
      h24, hccd, h80e, htta, hpt, htds, hadv⟩ := hp
    exact ⟨hb, hh, hsa, hoa, hbo, hii, hri, hcg, hoi,
      le_min h80c.1 (by norm_num), le_min h80d.1 (by norm_num), h80g,
      h24, hccd.1, h80e, htta.1, hpt.1, htds, hadv, rfl⟩

/-- Witness for the amended claim C4 at `FinancialData(standard_deduction=-5)`. -/
theorem claim_C4_witness :
    FinancialData.construct fdNegStd = .ok fdNegStd ∧
    (0 ≤ fdNegStd.basic_salary ∧ 0 ≤ fdNegStd.hra ∧ 0 ≤ fdNegStd.special_allowance ∧
     0 ≤ fdNegStd.other_allowances ∧ 0 ≤ fdNegStd.bonus ∧ 0 ≤ fdNegStd.interest_income ∧
     0 ≤ fdNegStd.rental_income ∧ 0 ≤ fdNegStd.capital_gains ∧ 0 ≤ fdNegStd.other_income ∧
     0 ≤ fdNegStd.section_80c ∧ 0 ≤ fdNegStd.section_80d ∧ 0 ≤ fdNegStd.section_80g ∧
     0 ≤ fdNegStd.section_24 ∧ 0 ≤ fdNegStd.section_80ccd1b ∧ 0 ≤ fdNegStd.section_80e ∧
     0 ≤ fdNegStd.section_80tta ∧ 0 ≤ fdNegStd.professional_tax ∧ 0 ≤ fdNegStd.tds_deducted ∧
     0 ≤ fdNegStd.advance_tax ∧ fdNegStd.standard_deduction = fdNegStd.standard_deduction) := by
  have hc : FinancialData.construct fdNegStd = .ok fdNegStd := by
    norm_num [FinancialData.construct, FinancialData.passes_field_constraints,
      fdNegStd, FinancialData.defaults, validate_80c_limit, validate_80d_limit, min_def]
  exact ⟨hc, claim_C4_amended_theorem fdNegStd fdNegStd hc⟩

/-- Claim C5: the comprehensive computation recommends OLD exactly when
`old.total_tax ≤ new.total_tax` (ties to OLD) and NEW exactly when the new
regime is strictly cheaper, and `savings_amount` is the absolute
difference of the two totals, hence non-negative. -/
theorem claim_C5_theorem (fd : FinancialData) (year : String)
    (r : TaxCalculationResponse)
    (h : calculate_comprehensive_tax fd year = .ok r) :
    (r.recommended_regime = .old ↔
      r.old_regime.total_tax ≤ r.new_regime.total_tax) ∧
    (r.recommended_regime = .new ↔
      r.new_regime.total_tax < r.old_regime.total_tax) ∧
    r.savings_amount = |r.old_regime.total_tax - r.new_regime.total_tax| ∧
    0 ≤ r.savings_amount := by
  simp only [calculate_comprehensive_tax] at h
  split at h
  · exact absurd h (by simp)
  · rename_i o ho
    split at h
    · exact absurd h (by simp)
    · rename_i n hn
      split_ifs at h with hle
      · obtain rfl := (Except.ok.inj h).symm
        refine ⟨iff_of_true rfl hle,
          iff_of_false (fun hx => TaxRegime.noConfusion hx) (not_lt.mpr hle),
          ?_, sub_nonneg.mpr hle⟩
        rw [abs_sub_comm]
        exact (abs_of_nonneg (sub_nonneg.mpr hle)).symm
      · push_neg at hle
        obtain rfl := (Except.ok.inj h).symm
        refine ⟨iff_of_false (fun hx => TaxRegime.noConfusion hx) (not_le.mpr hle),
          iff_of_true rfl hle, ?_, sub_nonneg.mpr hle.le⟩
        exact (abs_of_nonneg (sub_nonneg.mpr hle.le)).symm

/-- Witness for claim C5 at the all-zero input (a tie, resolved to OLD). -/
theorem claim_C5_witness :
    calculate_comprehensive_tax fdZero "2024-25" = .ok respZero ∧
    ((respZero.recommended_regime = .old ↔
       respZero.old_regime.total_tax ≤ respZero.new_regime.total_tax) ∧
     (respZero.recommended_regime = .new ↔
       respZero.new_regime.total_tax < respZero.old_regime.total_tax) ∧
     respZero.savings_amount =
       |respZero.old_regime.total_tax - respZero.new_regime.total_tax| ∧
     0 ≤ respZero.savings_amount) :=
  ⟨comprehensive_fdZero,
    claim_C5_theorem fdZero "2024-25" respZero comprehensive_fdZero⟩

/-- Claim C6: whatever the assessment year, total deductions in the OLD
regime are the standard deduction plus the capped/uncapped section
deductions plus professional tax, and in the NEW regime only the standard
deduction plus professional tax. -/
theorem claim_C6_theorem (fd : FinancialData) (year : String)
    (dOld dNew : RegimeTaxDetails)
    (hOld : calculate_regime_tax fd .old year = .ok dOld)
    (hNew : calculate_regime_tax fd .new year = .ok dNew) :
    dOld.total_deductions =
      fd.standard_deduction + min fd.section_80c 150000 +
        min fd.section_80d 25000 + fd.section_80g + fd.section_24 +
        min fd.section_80ccd1b 50000 + fd.section_80e +
        min fd.section_80tta 10000 + fd.professional_tax ∧
    dNew.total_deductions = fd.standard_deduction + fd.professional_tax := by
  obtain ⟨so, _, _, _, hdo, _⟩ := calculate_regime_tax_ok_elim hOld
  obtain ⟨sn, _, _, _, hdn, _⟩ := calculate_regime_tax_ok_elim hNew
  constructor
  · rw [hdo]; rfl
  · rw [hdn]; rfl

/-- Witness for claim C6 at the worked example. -/
theorem claim_C6_witness :
    calculate_regime_tax fdC2 .old "2024-25" = .ok respC2_old ∧
    calculate_regime_tax fdC2 .new "2024-25" = .ok respC2_new ∧
    (respC2_old.total_deductions =
       fdC2.standard_deduction + min fdC2.section_80c 150000 +
         min fdC2.section_80d 25000 + fdC2.section_80g + fdC2.section_24 +
         min fdC2.section_80ccd1b 50000 + fdC2.section_80e +
         min fdC2.section_80tta 10000 + fdC2.professional_tax ∧
     respC2_new.total_deductions =
       fdC2.standard_deduction + fdC2.professional_tax) :=
  ⟨regime_tax_fdC2_old, regime_tax_fdC2_new,
    claim_C6_theorem fdC2 "2024-25" respC2_old respC2_new
      regime_tax_fdC2_old regime_tax_fdC2_new⟩

/-- Claim C7: slab-wise tax before cess is monotone non-decreasing in
taxable income, for each of the configured slab tables. -/
theorem claim_C7_theorem (slabs : List Slab)
    (hs : slabs = old_slabs_2425 ∨ slabs = new_slabs_2425 ∨
      slabs = old_slabs_2324 ∨ slabs = new_slabs_2324)
    (x y : ℚ) (hxy : x ≤ y) :
    (calculate_slab_tax slabs x).1 ≤ (calculate_slab_tax slabs y).1 := by
  rcases hs with rfl | rfl | rfl | rfl
  · exact slab_tax_mono _ slabsWF_old_2425 x y hxy
  · exact slab_tax_mono _ slabsWF_new_2425 x y hxy
  · exact slab_tax_mono _ slabsWF_old_2324 x y hxy
  · exact slab_tax_mono _ slabsWF_new_2324 x y hxy

/-- Witness for claim C7 on the old 2024-25 table at 100000 ≤ 700000. -/
theorem claim_C7_witness :
    (old_slabs_2425 = old_slabs_2425 ∨ old_slabs_2425 = new_slabs_2425 ∨
      old_slabs_2425 = old_slabs_2324 ∨ old_slabs_2425 = new_slabs_2324) ∧
    (100000 : ℚ) ≤ 700000 ∧
    (calculate_slab_tax old_slabs_2425 100000).1 ≤
      (calculate_slab_tax old_slabs_2425 700000).1 :=
  ⟨Or.inl rfl, by norm_num,
    claim_C7_theorem old_slabs_2425 (Or.inl rfl) 100000 700000 (by norm_num)⟩

/-- Claim C8: the effective tax rate is `round(total_tax / gross_income
* 100, 2)` when gross income is positive and 0 when it is zero, and the
all-zero input produces zero taxable income, zero total tax and a zero
effective rate in either regime — no division-by-zero fault. -/
theorem claim_C8_theorem (fd : FinancialData) (r : TaxRegime) (year : String)
    (d : RegimeTaxDetails)
    (h : calculate_regime_tax fd r year = .ok d) :
    (0 < d.gross_income →
      d.effective_tax_rate = py_round2 (d.total_tax / d.gross_income * 100)) ∧
    (d.gross_income = 0 → d.effective_tax_rate = 0) ∧
    (fd = fdZero →
      d.taxable_income = 0 ∧ d.total_tax = 0 ∧ d.effective_tax_rate = 0) := by
  obtain ⟨slabs, hslabs, hreg, hgross, hded, htax, htbc, hcess, htot, hdet,
    heff, htds, hadv, href⟩ := calculate_regime_tax_ok_elim h
  refine ⟨?_, ?_, ?_⟩
  · intro hpos
    rw [heff, if_pos hpos]
  · intro hzero
    rw [heff, hzero]
    norm_num [py_round2_zero]
  · intro hfd
    subst hfd
    have hg : FinancialData.total_income fdZero = 0 := by
      norm_num [fdZero, FinancialData.total_income, FinancialData.gross_salary]
    have hd0 : d.total_deductions = 0 := by
      rw [hded]
      cases r
      · norm_num [calculate_old_regime_deductions, fdZero, limit_section_80c,
          limit_section_80d_individual, limit_section_80ccd1b,
          limit_section_80tta, min_def]
      · norm_num [calculate_new_regime_deductions, fdZero]
    have hti : d.taxable_income = 0 := by
      rw [htax, hgross, hg, hd0]
      norm_num
    have htbc0 : d.tax_before_cess = 0 := by
      rw [htbc, hti, calculate_slab_tax_nonpos slabs 0 le_rfl]
    have htot0 : d.total_tax = 0 := by
      rw [htot, hcess, htbc0]
      norm_num
    refine ⟨hti, htot0, ?_⟩
    rw [heff, hgross, hg]
    norm_num [py_round2_zero]

/-- Witness for claim C8 at the all-zero input in the old regime. -/
theorem claim_C8_witness :
    calculate_regime_tax fdZero .old "2024-25" = .ok rtdZero_old ∧
    ((0 < rtdZero_old.gross_income →
       rtdZero_old.effective_tax_rate =
         py_round2 (rtdZero_old.total_tax / rtdZero_old.gross_income * 100)) ∧
     (rtdZero_old.gross_income = 0 → rtdZero_old.effective_tax_rate = 0) ∧
     (fdZero = fdZero →
       rtdZero_old.taxable_income = 0 ∧ rtdZero_old.total_tax = 0 ∧
         rtdZero_old.effective_tax_rate = 0)) :=
  ⟨regime_tax_fdZero_old,
    claim_C8_theorem fdZero .old "2024-25" rtdZero_old regime_tax_fdZero_old⟩

/-- Claim C9: an assessment-year key absent from `TAX_SLABS` is not an
error: the service lookup falls back to the 2024-25 table of the requested
regime and the regime computation still returns a result. -/
theorem claim_C9_theorem (fd : FinancialData) (r : TaxRegime) (year : String)
    (h24 : year ≠ "2024-25") (h23 : year ≠ "2023-24") :
    get_tax_slabs r.value year = get_tax_slabs r.value "2024-25" ∧
    (r = .old → get_tax_slabs r.value year = .ok old_slabs_2425) ∧
    (r = .new → get_tax_slabs r.value year = .ok new_slabs_2425) ∧
    ∃ d, calculate_regime_tax fd r year = .ok d := by
  have hfb := get_tax_slabs_fallback r year h24 h23
  refine ⟨hfb, ?_, ?_, ?_⟩
  · rintro rfl
    rw [hfb]
    exact get_tax_slabs_old_2425
  · rintro rfl
    rw [hfb]
    exact get_tax_slabs_new_2425
  · obtain ⟨slabs, hs⟩ := get_tax_slabs_isOk r year
    simp only [calculate_regime_tax, hs]
    exact ⟨_, rfl⟩

/-- Witness for claim C9 at the unknown year "2025-26", old regime,
all-zero input. -/
theorem claim_C9_witness :
    ("2025-26" : String) ≠ "2024-25" ∧ ("2025-26" : String) ≠ "2023-24" ∧
    (get_tax_slabs TaxRegime.old.value "2025-26" =
       get_tax_slabs TaxRegime.old.value "2024-25" ∧
     (TaxRegime.old = .old →
       get_tax_slabs TaxRegime.old.value "2025-26" = .ok old_slabs_2425) ∧
     (TaxRegime.old = .new →
       get_tax_slabs TaxRegime.old.value "2025-26" = .ok new_slabs_2425) ∧
     ∃ d, calculate_regime_tax fdZero .old "2025-26" = .ok d) :=
  ⟨by decide, by decide,
    claim_C9_theorem fdZero .old "2025-26" (by decide) (by decide)⟩

/-- Claim C10: every regime-tax result's slab breakdown is internally
consistent: the `(min, max, rate)` keys of its recorded slab details form
an in-order prefix of the configured slab table the lookup returned, and
the recorded per-slab tax amounts sum exactly to `tax_before_cess`. -/
theorem claim_C10_theorem (fd : FinancialData) (r : TaxRegime) (year : String)
    (d : RegimeTaxDetails) (slabs : List Slab)
    (h : calculate_regime_tax fd r year = .ok d)
    (hs : get_tax_slabs r.value year = .ok slabs) :
    (d.tax_slabs.map (fun t => (t.min_amount, t.max_amount, t.rate))) <+:
      (slabs.map (fun s => (s.min, s.max, s.rate))) ∧
    (d.tax_slabs.map TaxSlabDetail.tax_amount).sum = d.tax_before_cess := by
  obtain ⟨slabs', hs', hreg, hgross, hded, htax, htbc, hcess, htot, hdet,
    heff, htds, hadv⟩ := calculate_regime_tax_ok_elim h
  rw [hs] at hs'
  obtain rfl := Except.ok.inj hs'
  constructor
  · rw [hdet]
    have hkeys : slabs.map (fun s => (s.min, s.effMax, s.rate)) =
        slabs.map (fun s => (s.min, s.max, s.rate)) := by
      rcases get_tax_slabs_cases r year with hc | hc | hc | hc <;>
        rw [hs] at hc <;> obtain rfl := Except.ok.inj hc
      · exact effMax_keys_old_2425
      · exact effMax_keys_new_2425
      · exact effMax_keys_old_2324
      · exact effMax_keys_new_2324
    rw [← hkeys]
    exact slab_tax_details_key_prefix slabs d.taxable_income
  · rw [hdet, htbc]
    exact slab_tax_sum slabs d.taxable_income

/-- Witness for claim C10 at the worked example, old regime 2024-25. -/
theorem claim_C10_witness :
    calculate_regime_tax fdC2 .old "2024-25" = .ok respC2_old ∧
    get_tax_slabs TaxRegime.old.value "2024-25" = .ok old_slabs_2425 ∧
    ((respC2_old.tax_slabs.map (fun t => (t.min_amount, t.max_amount, t.rate))) <+:
       (old_slabs_2425.map (fun s => (s.min, s.max, s.rate))) ∧
     (respC2_old.tax_slabs.map TaxSlabDetail.tax_amount).sum =
       respC2_old.tax_before_cess) :=
  ⟨regime_tax_fdC2_old, get_tax_slabs_old_2425,
    claim_C10_theorem fdC2 .old "2024-25" respC2_old old_slabs_2425
      regime_tax_fdC2_old get_tax_slabs_old_2425⟩
